import Mathlib

/-!
Shallow embedding of `src/app.py` (Streamlit chat front-end for a Bedrock
agent), covering the parts that the claims of the specification are about:

* the Python values flowing through the completion stream (`PyVal`),
* UTF-8 decoding as performed by `bytes.decode("utf-8")` (`utf8Decode`),
* `str.strip()` (`pyStrip`),
* `get_bedrock_response` (lines 33-69),
* the authentication gate (lines 78-92),
* the one-shot `datetime_sent` timestamp bootstrap (lines 102-107),
* the transcript `st.session_state.messages` (lines 109-166),
* one Streamlit script run (`runScript`) and a multi-run trace
  (`runTrace`): Streamlit re-executes the whole script on every user
  interaction, while `st.session_state` persists across runs.
-/

/-- A Python value, restricted to the shapes that reach the stream-decoding
code: dicts with string keys, byte strings (as lists of byte values),
text strings, integers, booleans, lists and None. -/
inductive PyVal where
  | pyNone : PyVal
  | pyBool : Bool → PyVal
  | pyInt : Int → PyVal
  | pyStr : String → PyVal
  | pyBytes : List Nat → PyVal
  | pyDict : List (String × PyVal) → PyVal
  | pyList : List PyVal → PyVal

/-- Is a byte a UTF-8 continuation byte (0x80-0xBF)? -/
def isCont (c : Nat) : Bool := 0x80 ≤ c && c ≤ 0xBF

/-- Strict UTF-8 decoding of a byte sequence, as done by Python
`bytes.decode("utf-8")`: rejects malformed sequences, overlong encodings,
surrogates (0xD800-0xDFFF) and code points above 0x10FFFF; returns the
decoded string on success and failure (`none`) otherwise. -/
def utf8Decode : List Nat → Option String
  | [] => some ""
  | b :: rest =>
    if b ≤ 0x7F then
      (utf8Decode rest).map (fun s => String.mk (Char.ofNat b :: s.data))
    else if 0xC2 ≤ b && b ≤ 0xDF then
      match rest with
      | c1 :: rest1 =>
        if isCont c1 then
          (utf8Decode rest1).map
            (fun s => String.mk (Char.ofNat ((b % 0x20) * 0x40 + c1 % 0x40) :: s.data))
        else none
      | [] => none
    else if 0xE0 ≤ b && b ≤ 0xEF then
      match rest with
      | c1 :: c2 :: rest2 =>
        let lo1 := if b == 0xE0 then 0xA0 else 0x80
        let hi1 := if b == 0xED then 0x9F else 0xBF
        if lo1 ≤ c1 && c1 ≤ hi1 && isCont c2 then
          (utf8Decode rest2).map
            (fun s => String.mk
              (Char.ofNat ((b % 0x10) * 0x1000 + (c1 % 0x40) * 0x40 + c2 % 0x40) :: s.data))
        else none
      | _ => none
    else if 0xF0 ≤ b && b ≤ 0xF4 then
      match rest with
      | c1 :: c2 :: c3 :: rest3 =>
        let lo1 := if b == 0xF0 then 0x90 else 0x80
        let hi1 := if b == 0xF4 then 0x8F else 0xBF
        if lo1 ≤ c1 && c1 ≤ hi1 && isCont c2 && isCont c3 then
          (utf8Decode rest3).map
            (fun s => String.mk
              (Char.ofNat ((b % 0x8) * 0x40000 + (c1 % 0x40) * 0x1000 +
                (c2 % 0x40) * 0x40 + c3 % 0x40) :: s.data))
        else none
      | _ => none
    else none

/-- Python whitespace as used by `str.strip()` (characters for which
`str.isspace()` holds): ASCII whitespace, the separator controls
0x1C-0x1F, NEL, NBSP and the Unicode space separators. -/
def pyIsSpace (c : Char) : Bool :=
  let n := c.toNat
  (9 ≤ n && n ≤ 13) || n == 32 || (28 ≤ n && n ≤ 31) || n == 0x85 || n == 0xA0 ||
  n == 0x1680 || (0x2000 ≤ n && n ≤ 0x200A) || n == 0x2028 || n == 0x2029 ||
  n == 0x202F || n == 0x205F || n == 0x3000

/-- Python `str.strip()`: remove leading and trailing whitespace. -/
def pyStrip (s : String) : String :=
  String.mk (((s.data.dropWhile pyIsSpace).reverse.dropWhile pyIsSpace).reverse)

/-- One message shown on the reporting surface (`st.error`, `st.success`,
`st.sidebar.error`, `st.sidebar.success`), by call site. Constructors carry
the data interpolated into the corresponding f-string. -/
inductive Report where
  | chunkError : List Nat → Report
  | awsError : String → String → Report
  | commError : String → Report
  | authSuccess : Report
  | authFailure : Report
  | clientInitError : String → Report
  | clientInitFatal : Report
  | connSuccess : Report
  | connError : String → Report
deriving DecidableEq, Repr

/-- Outcome of processing one stream event inside the `for event` loop of
`get_bedrock_response` (lines 47-58): the event structurally matched
`{chunk: {bytes: <bytes>}}` and decoded (`text`), it did not match and was
silently skipped (`skip`), or it matched but UTF-8 decoding raised, which
is caught and reported (`decodeError`, carrying the offending bytes). -/
inductive EventRes where
  | text : String → EventRes
  | skip : EventRes
  | decodeError : List Nat → EventRes
deriving DecidableEq, Repr

/-- Classify one stream event exactly as the nested `isinstance`/`in`
checks of lines 49-54 do. -/
def eventRes (event : PyVal) : EventRes :=
  match event with
  | .pyDict entries =>
    match entries.lookup "chunk" with
    | some (.pyDict centries) =>
      match centries.lookup "bytes" with
      | some (.pyBytes bs) =>
        match utf8Decode bs with
        | some t => .text t
        | none => .decodeError bs
      | _ => .skip
    | _ => .skip
  | _ => .skip

/-- The `for event in response["completion"]` loop (lines 46-58): fold over
the events accumulating `full_response` and the error reports, in order. -/
def processCompletion (events : List PyVal) : String × List Report :=
  events.foldl
    (fun acc event =>
      match eventRes event with
      | .text t => (acc.1 ++ t, acc.2)
      | .skip => acc
      | .decodeError bs => (acc.1, acc.2 ++ [.chunkError bs]))
    ("", [])

/-- Outcome of the remote `invoke_agent` call, as seen by the caller:
a response envelope (a dict), a `botocore` `ClientError` carrying a code
and a message, or any other exception carrying its message. -/
inductive InvokeOutcome where
  | response : List (String × PyVal) → InvokeOutcome
  | clientError : String → String → InvokeOutcome
  | otherError : String → InvokeOutcome

/-- Python iteration over a value, for `for event in response["completion"]`:
lists yield their elements, strings their characters, bytes their byte
values, dicts their keys; other values raise `TypeError`. -/
def pyIter : PyVal → Option (List PyVal)
  | .pyList xs => some xs
  | .pyStr s => some (s.data.map (fun c => .pyStr (String.mk [c])))
  | .pyBytes bs => some (bs.map (fun n => .pyInt (Int.ofNat n)))
  | .pyDict es => some (es.map (fun e => .pyStr e.1))
  | _ => none

/-- The Python type name, used in the `TypeError` message for iterating a
non-iterable value. -/
def pyTypeName : PyVal → String
  | .pyNone => "NoneType"
  | .pyBool _ => "bool"
  | .pyInt _ => "int"
  | .pyStr _ => "str"
  | .pyBytes _ => "bytes"
  | .pyDict _ => "dict"
  | .pyList _ => "list"

/-- `get_bedrock_response` (lines 33-69), parameterized by the outcome of
the remote call. Returns the Python return value (`some s` for a string,
`none` for Python `None` on the error paths) together with the reports
emitted via `st.error`, in order. The agent identity, alias and session id
passed to `invoke_agent` are ambient globals and do not affect this
decoding logic. -/
def get_bedrock_response (outcome : InvokeOutcome) : Option String × List Report :=
  match outcome with
  | .response env =>
    match env.lookup "completion" with
    | none => (some "No completion in response", [])
    | some comp =>
      match pyIter comp with
      | some events =>
        let r := processCompletion events
        (some (pyStrip r.1), r.2)
      | none => (none, [.commError (pyTypeName comp ++ " object is not iterable")])
  | .clientError code msg => (none, [.awsError code msg])
  | .otherError msg => (none, [.commError msg])

/-- One transcript entry, `{"role": ..., "content": ...}`. -/
structure Turn where
  role : String
  content : String
deriving DecidableEq, Repr

/-- The persistent `st.session_state`, which survives script reruns within
one interactive session. A field is `none` when its key is absent
(`"x" not in st.session_state`) and `some v` when present with value `v`. -/
structure SessionState where
  authenticated : Option Bool
  datetime_sent : Option Bool
  messages : Option (List Turn)
deriving DecidableEq, Repr

/-- The fresh session state of a new interactive session: no keys set. -/
def freshSession : SessionState := ⟨none, none, none⟩

/-- The configuration dict returned by `load_credentials` (lines 10-18):
five environment variables, each possibly unset (`None`). -/
structure Credentials where
  aws_access_key : Option String
  aws_secret_key : Option String
  agent_id : Option String
  agent_alias : Option String
  secret_key : Option String

/-- One call to `invoke_agent`, recording the `sessionId` and `inputText`
arguments (the `agentId`/`agentAliasId` arguments are the constants
`credentials["agent_id"]`/`credentials["agent_alias"]` at every call site
and are omitted). -/
structure Invocation where
  sessionId : String
  inputText : String
deriving DecidableEq, Repr

/-- Python truthiness of an optional string: `None` and `""` are falsy. -/
def pyTruthyStr : Option String → Bool
  | none => false
  | some s => !(s == "")

/-- Lines 78-79: ensure the `authenticated` key exists, initially `False`. -/
def initAuthKey (st : SessionState) : SessionState :=
  match st.authenticated with
  | none => { st with authenticated := some false }
  | some _ => st

/-- The authentication gate body (lines 82-92), reached when
`st.session_state.authenticated` is falsy: if the Submit button was
clicked, compare the typed text with `credentials["secret_key"]` by exact
string equality (`==`; equality with an unset `None` secret is false);
on match set `authenticated` to `True`, on mismatch report failure. -/
def authGate (secretKey : Option String) (st : SessionState)
    (userSecret : String) (submitClicked : Bool) : SessionState × List Report :=
  if submitClicked then
    if secretKey = some userSecret then
      ({ st with authenticated := some true }, [.authSuccess])
    else
      (st, [.authFailure])
  else (st, [])

/-- The one-shot timestamp bootstrap (lines 102-107): if the
`datetime_sent` key is absent, send `get_bedrock_response` the synthetic
system-update message carrying the current UTC time, discard its return
value (`_ =`), and set `datetime_sent`. Returns the new state, the
invocations made and the reports emitted. -/
def timestampStep (st : SessionState) (uuid currentDt : String)
    (outcome : InvokeOutcome) : SessionState × List Invocation × List Report :=
  match st.datetime_sent with
  | none =>
    let r := get_bedrock_response outcome
    ({ st with datetime_sent := some true },
     [⟨uuid, "System update: The current date and time is " ++ currentDt ++ "."⟩],
     r.2)
  | some _ => (st, [], [])

/-- Line 110-111: ensure the `messages` key exists, initially `[]`. -/
def initMessages (st : SessionState) : SessionState :=
  match st.messages with
  | none => { st with messages := some [] }
  | some _ => st

/-- The chat turn (lines 156-166): if `st.chat_input` returned a truthy
prompt, append the user turn, call `get_bedrock_response`, and append an
assistant turn only when the returned value is truthy (a non-`None`,
non-empty string). -/
def chatStep (st : SessionState) (uuid : String) (prompt : Option String)
    (outcome : InvokeOutcome) : SessionState × List Invocation × List Report :=
  if pyTruthyStr prompt then
    let p := prompt.getD ""
    let ms1 := (st.messages.getD []) ++ [⟨"user", p⟩]
    let r := get_bedrock_response outcome
    if pyTruthyStr r.1 then
      ({ st with messages := some (ms1 ++ [⟨"assistant", r.1.getD ""⟩]) },
       [⟨uuid, p⟩], r.2)
    else
      ({ st with messages := some ms1 }, [⟨uuid, p⟩], r.2)
  else (st, [], [])

/-- The sidebar diagnostic (lines 173-183): if the button was clicked,
issue one raw `invoke_agent` call with input text `"test"`; report success
or the exception message. `checkOutcome` is `none` when the call does not
raise and `some msg` when it raises with message `msg`. -/
def checkConnStep (uuid : String) (clicked : Bool)
    (checkOutcome : Option String) : List Invocation × List Report :=
  if clicked then
    match checkOutcome with
    | none => ([⟨uuid, "test"⟩], [.connSuccess])
    | some e => ([⟨uuid, "test"⟩], [.connError e])
  else ([], [])

/-- The per-rerun inputs: fresh randomness (`uuid.uuid4()`), widget state
and the oracle outcomes of the remote calls made this run, if reached. -/
structure RunInput where
  freshUuid : String
  userSecret : String
  submitClicked : Bool
  clientInitOk : Bool
  clientInitErrMsg : String
  currentDt : String
  timestampOutcome : InvokeOutcome
  chatPrompt : Option String
  chatOutcome : InvokeOutcome
  checkConnClicked : Bool
  checkConnOutcome : Option String

/-- The observable result of one script run: the new persistent state, the
`invoke_agent` calls made, and the reports shown, each in order. -/
structure RunResult where
  state : SessionState
  invocations : List Invocation
  reports : List Report

/-- One full Streamlit script run of `app.py`, top to bottom. When
`authenticated` is falsy the run stops inside the gate (lines 82-92).
Otherwise the Bedrock client is built (line 95; on failure the run stops
with two reports), a fresh `session_id` is drawn (line 100: this happens
on EVERY run, the value is not kept in `st.session_state`), then the
timestamp bootstrap, the history render, the chat turn and the diagnostic
button run in order. -/
def runScript (cred : Credentials) (st0 : SessionState) (inp : RunInput) : RunResult :=
  let st1 := initAuthKey st0
  match st1.authenticated with
  | some true =>
    if inp.clientInitOk then
      let ts := timestampStep st1 inp.freshUuid inp.currentDt inp.timestampOutcome
      let st2 := initMessages ts.1
      let ch := chatStep st2 inp.freshUuid inp.chatPrompt inp.chatOutcome
      let ck := checkConnStep inp.freshUuid inp.checkConnClicked inp.checkConnOutcome
      ⟨ch.1, ts.2.1 ++ ch.2.1 ++ ck.1, ts.2.2 ++ ch.2.2 ++ ck.2⟩
    else
      ⟨st1, [], [.clientInitError inp.clientInitErrMsg, .clientInitFatal]⟩
  | _ =>
    let ag := authGate cred.secret_key st1 inp.userSecret inp.submitClicked
    ⟨ag.1, [], ag.2⟩

/-- A sequence of script runs of one interactive session: thread the
persistent state through and collect all invocations in order. -/
def runTrace (cred : Credentials) (st : SessionState) :
    List RunInput → SessionState × List Invocation
  | [] => (st, [])
  | inp :: rest =>
    let r := runScript cred st inp
    let t := runTrace cred r.state rest
    (t.1, r.invocations ++ t.2)

/-- The guard of the one-shot timestamp bootstrap, line 103:
`"datetime_sent" not in st.session_state`. -/
def should_send_initial_timestamp (st : SessionState) : Bool :=
  st.datetime_sent.isNone

/-- `st.session_state.messages.append(turn)` (lines 159, 166). -/
def appendTurn (ms : List Turn) (t : Turn) : List Turn := ms ++ [t]

/-- The history render loop (lines 151-153) replays
`st.session_state.messages` in list order, without modifying it. -/
def replayTranscript (ms : List Turn) : List Turn := ms

/-- The decoded text one event contributes to `full_response`: its decoded
chunk text if it matched and decoded, nothing otherwise. -/
def decodedText (e : PyVal) : String :=
  match eventRes e with
  | .text t => t
  | _ => ""

/-- The reports one event contributes: a chunk-error report exactly when
its bytes failed to decode. -/
def chunkReports (e : PyVal) : List Report :=
  match eventRes e with
  | .decodeError bs => [.chunkError bs]
  | _ => []

/-- Concatenation of the decoded texts of a list of events, in order. -/
def concatTexts : List PyVal → String
  | [] => ""
  | e :: es => decodedText e ++ concatTexts es

/-- Concatenation of the per-event reports of a list of events, in order. -/
def concatReports : List PyVal → List Report
  | [] => []
  | e :: es => chunkReports e ++ concatReports es

/-- A concrete configuration with all five environment variables set. -/
def cred0 : Credentials := ⟨some "AK", some "SK", some "AGENT", some "ALIAS", some "s3cret"⟩

/-- The session state right after the rerun triggered by a successful
authentication: `authenticated` is set, nothing else is. -/
def authedFresh : SessionState := ⟨some true, none, none⟩

/-- A first post-authentication script run: no widget interaction, the
remote call (if made) answers with an envelope lacking `completion`. -/
def inputRun1 : RunInput :=
  ⟨"uuid-1", "", false, true, "", "2025-01-01 00:00:00 UTC",
   .response [("x", .pyInt 0)], none, .response [("x", .pyInt 0)], false, none⟩

/-- A second script run of the same session, in which the user submits the
chat prompt "hi"; `uuid.uuid4()` draws a different fresh value. -/
def inputRun2 : RunInput :=
  ⟨"uuid-2", "", false, true, "", "2025-01-01 00:00:00 UTC",
   .response [("x", .pyInt 0)], some "hi", .response [("x", .pyInt 0)], false, none⟩

theorem concatTexts_append (xs ys : List PyVal) :
    concatTexts (xs ++ ys) = concatTexts xs ++ concatTexts ys := by
  induction xs with
  | nil => simp [concatTexts]
  | cons e es ih => simp [concatTexts, ih, String.append_assoc]

theorem concatReports_append (xs ys : List PyVal) :
    concatReports (xs ++ ys) = concatReports xs ++ concatReports ys := by
  induction xs with
  | nil => simp [concatReports]
  | cons e es ih => simp [concatReports, ih]

theorem processCompletion_go (events : List PyVal) :
    ∀ (a : String) (r : List Report),
      List.foldl
        (fun acc event =>
          match eventRes event with
          | .text t => (acc.1 ++ t, acc.2)
          | .skip => acc
          | .decodeError bs => (acc.1, acc.2 ++ [Report.chunkError bs]))
        (a, r) events = (a ++ concatTexts events, r ++ concatReports events) := by
  induction events with
  | nil => intro a r; simp [concatTexts, concatReports]
  | cons e es ih =>
    intro a r
    simp only [List.foldl_cons]
    cases h : eventRes e with
    | text t =>
      simp only [h, ih, concatTexts, concatReports, decodedText, chunkReports,
        String.append_assoc, List.append_assoc]
      simp
    | skip =>
      simp only [h, ih, concatTexts, concatReports, decodedText, chunkReports]
      simp [String.append_assoc]
    | decodeError bs =>
      simp only [h, ih, concatTexts, concatReports, decodedText, chunkReports]
      simp [String.append_assoc, List.append_assoc]

theorem processCompletion_eq (events : List PyVal) :
    processCompletion events = (concatTexts events, concatReports events) := by
  unfold processCompletion
  rw [processCompletion_go]
  simp

/-- C2: for the completion stream
`[{chunk:{bytes:b"Hello, "}}, {unrelated: 1}, {chunk:{bytes:b"world!"}}]`,
`get_bedrock_response` returns exactly `"Hello, world!"` and reports no
error: the unmatched event is silently skipped, the decoded texts are
concatenated in stream order, and the accumulated string is trimmed. -/
theorem c2_stream_concat :
    get_bedrock_response (.response [("completion", .pyList
      [.pyDict [("chunk", .pyDict [("bytes", .pyBytes [72, 101, 108, 108, 111, 44, 32])])],
       .pyDict [("unrelated", .pyInt 1)],
       .pyDict [("chunk", .pyDict [("bytes", .pyBytes [119, 111, 114, 108, 100, 33])])]])]) =
    (some "Hello, world!", []) := by decide

/-- C3: for every response envelope that lacks a `completion` key,
`get_bedrock_response` returns the literal string
`"No completion in response"` and emits no error report. -/
theorem c3_no_completion (env : List (String × PyVal))
    (h : env.lookup "completion" = none) :
    get_bedrock_response (.response env) = (some "No completion in response", []) := by
  simp [get_bedrock_response, h]

theorem c3_no_completion_witness :
    List.lookup "completion" [("x", PyVal.pyInt 1)] = none ∧
    get_bedrock_response (.response [("x", PyVal.pyInt 1)]) =
      (some "No completion in response", []) :=
  ⟨rfl, c3_no_completion [("x", PyVal.pyInt 1)] rfl⟩

/-- C4: if any one event of the completion stream matches the chunk shape
but its bytes fail UTF-8 decoding, `get_bedrock_response` does not abort:
it emits a chunk-error report for exactly that event, keeps consuming the
remaining events, and returns the trimmed concatenation of the decoded
texts of all the other events. -/
theorem c4_decode_failure_tolerated (pre post : List PyVal) (bad : PyVal) (bs : List Nat)
    (h : eventRes bad = .decodeError bs) :
    get_bedrock_response (.response [("completion", .pyList (pre ++ bad :: post))]) =
      (some (pyStrip (concatTexts pre ++ concatTexts post)),
       concatReports pre ++ Report.chunkError bs :: concatReports post) := by
  have htext : concatTexts (pre ++ bad :: post) = concatTexts pre ++ concatTexts post := by
    rw [concatTexts_append]
    simp [concatTexts, decodedText, h]
  have hrep : concatReports (pre ++ bad :: post) =
      concatReports pre ++ Report.chunkError bs :: concatReports post := by
    rw [concatReports_append]
    simp [concatReports, chunkReports, h]
  have hl : List.lookup "completion"
      [("completion", PyVal.pyList (pre ++ bad :: post))] =
      some (PyVal.pyList (pre ++ bad :: post)) := rfl
  simp [get_bedrock_response, hl, pyIter, processCompletion_eq, htext, hrep]

theorem c4_decode_failure_tolerated_witness :
    eventRes (.pyDict [("chunk", .pyDict [("bytes", .pyBytes [255])])]) =
      .decodeError [255] ∧
    get_bedrock_response (.response [("completion", .pyList
      [.pyDict [("chunk", .pyDict [("bytes", .pyBytes [72, 101, 108, 108, 111, 44, 32])])],
       .pyDict [("chunk", .pyDict [("bytes", .pyBytes [255])])],
       .pyDict [("chunk", .pyDict [("bytes", .pyBytes [119, 111, 114, 108, 100, 33])])]])]) =
      (some "Hello, world!", [Report.chunkError [255]]) := by
  refine ⟨by decide, ?_⟩
  have h := c4_decode_failure_tolerated
    [.pyDict [("chunk", .pyDict [("bytes", .pyBytes [72, 101, 108, 108, 111, 44, 32])])]]
    [.pyDict [("chunk", .pyDict [("bytes", .pyBytes [119, 111, 114, 108, 100, 33])])]]
    (.pyDict [("chunk", .pyDict [("bytes", .pyBytes [255])])])
    [255] (by decide)
  exact h.trans (by decide)

/-- C7: a classified remote-service error (a `ClientError`) makes
`get_bedrock_response` return `None` and report the error code and message
on the AWS-error surface, while an unclassified error also returns `None`
but produces a communication-error report, and the two reports are never
equal. -/
theorem c7_error_classes (code msg : String) :
    get_bedrock_response (.clientError code msg) = (none, [Report.awsError code msg]) ∧
    (∀ m, get_bedrock_response (.otherError m) = (none, [Report.commError m])) ∧
    (∀ m, Report.awsError code msg ≠ Report.commError m) := by
  refine ⟨rfl, fun m => rfl, fun m => by simp⟩

theorem initAuthKey_datetime (st : SessionState) :
    (initAuthKey st).datetime_sent = st.datetime_sent := by
  cases h : st.authenticated <;> simp [initAuthKey, h]

theorem initMessages_datetime (st : SessionState) :
    (initMessages st).datetime_sent = st.datetime_sent := by
  cases h : st.messages <;> simp [initMessages, h]

theorem timestampStep_datetime (st : SessionState) (u d : String) (o : InvokeOutcome) :
    (timestampStep st u d o).1.datetime_sent = some (st.datetime_sent.getD true) := by
  cases h : st.datetime_sent <;> simp [timestampStep, h]

theorem chatStep_datetime (st : SessionState) (u : String) (p : Option String)
    (o : InvokeOutcome) : (chatStep st u p o).1.datetime_sent = st.datetime_sent := by
  unfold chatStep
  split
  · dsimp only
    split <;> rfl
  · rfl

theorem authGate_datetime (sk : Option String) (st : SessionState) (us : String)
    (c : Bool) : (authGate sk st us c).1.datetime_sent = st.datetime_sent := by
  unfold authGate
  split
  · split <;> rfl
  · rfl

/-- C5: with the gate reached (authenticated flag present and false) and
the Submit button clicked, the `authenticated` flag becomes true if and
only if the typed text equals the configured secret exactly; on any
mismatch the session state is unchanged (the flag stays false) and an
authentication failure is reported. -/
theorem c5_auth_gate (secretKey : Option String) (st : SessionState) (userSecret : String)
    (h : st.authenticated = some false) :
    ((authGate secretKey st userSecret true).1.authenticated = some true ↔
      secretKey = some userSecret) ∧
    (secretKey ≠ some userSecret →
      (authGate secretKey st userSecret true).1 = st ∧
      (authGate secretKey st userSecret true).2 = [Report.authFailure]) := by
  by_cases he : secretKey = some userSecret
  · simp [authGate, he]
  · simp [authGate, he, h]

theorem c5_auth_gate_witness :
    (authGate (some "s3cret") ⟨some false, none, none⟩ "s3cret" true).1.authenticated =
      some true ∧
    ((authGate (some "s3cret") ⟨some false, none, none⟩ "nope" true).1 =
      (⟨some false, none, none⟩ : SessionState) ∧
     (authGate (some "s3cret") ⟨some false, none, none⟩ "nope" true).2 =
      [Report.authFailure]) :=
  ⟨(c5_auth_gate (some "s3cret") ⟨some false, none, none⟩ "s3cret" rfl).1.mpr rfl,
   (c5_auth_gate (some "s3cret") ⟨some false, none, none⟩ "nope" rfl).2 (by decide)⟩

/-- C6: the datetime guard is true on a fresh session; after any script run
that reaches the main page (authenticated, client built) the guard is
false; and once false it stays false across every further script run of
the session — so the system-time notification is gated to at most once. -/
theorem c6_timestamp_guard_one_shot :
    should_send_initial_timestamp freshSession = true ∧
    (∀ cred st inp, (initAuthKey st).authenticated = some true →
      inp.clientInitOk = true →
      should_send_initial_timestamp (runScript cred st inp).state = false) ∧
    (∀ cred st inp, should_send_initial_timestamp st = false →
      should_send_initial_timestamp (runScript cred st inp).state = false) := by
  refine ⟨rfl, ?_, ?_⟩
  · intro cred st inp hauth hok
    simp only [runScript, hauth, hok, if_true]
    simp [should_send_initial_timestamp, chatStep_datetime, initMessages_datetime,
      timestampStep_datetime]
  · intro cred st inp h
    cases hA : (initAuthKey st).authenticated with
    | none =>
      simp only [runScript, hA]
      simpa [should_send_initial_timestamp, authGate_datetime, initAuthKey_datetime]
        using h
    | some b =>
      cases b with
      | false =>
        simp only [runScript, hA]
        simpa [should_send_initial_timestamp, authGate_datetime, initAuthKey_datetime]
          using h
      | true =>
        cases hok : inp.clientInitOk with
        | false =>
          simp only [runScript, hA, hok, if_false]
          simpa [should_send_initial_timestamp, initAuthKey_datetime] using h
        | true =>
          simp only [runScript, hA, hok, if_true]
          simp [should_send_initial_timestamp, chatStep_datetime, initMessages_datetime,
            timestampStep_datetime]

theorem c6_timestamp_guard_one_shot_witness :
    should_send_initial_timestamp (runScript cred0 authedFresh inputRun1).state = false ∧
    should_send_initial_timestamp
      (runScript cred0 ⟨some true, some true, some []⟩ inputRun2).state = false :=
  ⟨c6_timestamp_guard_one_shot.2.1 cred0 authedFresh inputRun1 rfl rfl,
   c6_timestamp_guard_one_shot.2.2 cred0 ⟨some true, some true, some []⟩ inputRun2 rfl⟩

/-- C8: appending any finite list of turns to an empty transcript and then
replaying it yields exactly those turns, with their roles and contents, in
append order; and replay itself returns the transcript unchanged, so
repeated replays yield the same snapshot. -/
theorem c8_transcript_round_trip (ts : List Turn) :
    replayTranscript (List.foldl appendTurn [] ts) = ts ∧
    (∀ ms : List Turn, replayTranscript ms = ms) := by
  refine ⟨?_, fun ms => rfl⟩
  have hfold : ∀ (us : List Turn) (ms : List Turn),
      List.foldl appendTurn ms us = ms ++ us := by
    intro us
    induction us with
    | nil => intro ms; simp
    | cons t ts ih =>
      intro ms
      simp only [List.foldl_cons, appendTurn, ih]
      simp
  simp [replayTranscript, hfold]

/-- C9: on a user turn whose invocation succeeds but yields the empty
accumulated string, only the user turn is appended — no assistant turn —
and the resulting session state and invocations are identical to those of
a turn whose invocation failed (returned `None`): the append is guarded by
truthiness of the returned string, so the two outcomes are
indistinguishable in the transcript. -/
theorem c9_empty_response_no_append (st : SessionState) (u p : String) (o : InvokeOutcome)
    (hp : p ≠ "")
    (h : (get_bedrock_response o).1 = some "") :
    (chatStep st u (some p) o).1.messages =
      some ((st.messages.getD []) ++ [⟨"user", p⟩]) ∧
    (∀ o2, (get_bedrock_response o2).1 = none →
      (chatStep st u (some p) o).1 = (chatStep st u (some p) o2).1 ∧
      (chatStep st u (some p) o).2.1 = (chatStep st u (some p) o2).2.1) := by
  have hps : pyTruthyStr (some p) = true := by simp [pyTruthyStr, hp]
  refine ⟨?_, ?_⟩
  · simp [chatStep, hps, h, pyTruthyStr, hp]
  · intro o2 h2
    constructor <;> simp [chatStep, hps, h, h2, pyTruthyStr, hp]

theorem c9_empty_response_no_append_witness :
    ("hi" : String) ≠ "" ∧
    (get_bedrock_response (.response [("completion", .pyList [])])).1 = some "" ∧
    (chatStep ⟨some true, some true, some []⟩ "u0" (some "hi")
        (.response [("completion", .pyList [])])).1.messages =
      some [⟨"user", "hi"⟩] ∧
    (chatStep ⟨some true, some true, some []⟩ "u0" (some "hi")
        (.response [("completion", .pyList [])])).1 =
      (chatStep ⟨some true, some true, some []⟩ "u0" (some "hi")
        (.otherError "boom")).1 :=
  ⟨by decide, rfl,
   (c9_empty_response_no_append ⟨some true, some true, some []⟩ "u0" "hi"
      (.response [("completion", .pyList [])]) (by decide) rfl).1,
   ((c9_empty_response_no_append ⟨some true, some true, some []⟩ "u0" "hi"
      (.response [("completion", .pyList [])]) (by decide) rfl).2
      (.otherError "boom") rfl).1⟩

/-- C10: the timestamp-bootstrap step never touches the transcript
(`messages` is unchanged, so replay never shows this turn); when the guard
is open it sends exactly one invocation carrying the synthetic
system-update text to the remote agent; and the resulting state and
invocations of the step do not depend on the outcome of the call — the returned text
is discarded. -/
theorem c10_timestamp_not_in_transcript (st : SessionState) (u d : String)
    (o : InvokeOutcome) :
    (timestampStep st u d o).1.messages = st.messages ∧
    (st.datetime_sent = none →
      (timestampStep st u d o).2.1 =
        [⟨u, "System update: The current date and time is " ++ d ++ "."⟩]) ∧
    (∀ o2, (timestampStep st u d o).1 = (timestampStep st u d o2).1 ∧
      (timestampStep st u d o).2.1 = (timestampStep st u d o2).2.1) := by
  cases h : st.datetime_sent <;> simp [timestampStep, h]

theorem c10_timestamp_not_in_transcript_witness :
    (timestampStep ⟨some true, none, some []⟩ "u0" "2025-01-01 00:00:00 UTC"
        (.otherError "boom")).1.messages = some [] ∧
    (timestampStep ⟨some true, none, some []⟩ "u0" "2025-01-01 00:00:00 UTC"
        (.otherError "boom")).2.1 =
      [⟨"u0", "System update: The current date and time is " ++
        "2025-01-01 00:00:00 UTC" ++ "."⟩] :=
  ⟨(c10_timestamp_not_in_transcript ⟨some true, none, some []⟩ "u0"
      "2025-01-01 00:00:00 UTC" (.otherError "boom")).1,
   (c10_timestamp_not_in_transcript ⟨some true, none, some []⟩ "u0"
      "2025-01-01 00:00:00 UTC" (.otherError "boom")).2.1 rfl⟩

/-- C1: the claim fails on this code. Line 100 draws `session_id` afresh on
every Streamlit script run and never stores it in `st.session_state`, so in
a two-run session (first the timestamp bootstrap, then a user turn) the two
invocations carry the two distinct fresh values — there is no single
session identifier shared by all invocations of the session. -/
theorem c1_session_id_regenerated :
    (runTrace cred0 authedFresh [inputRun1, inputRun2]).2.map Invocation.sessionId =
      ["uuid-1", "uuid-2"] ∧
    ¬ ∃ sid, ∀ i ∈ (runTrace cred0 authedFresh [inputRun1, inputRun2]).2,
        i.sessionId = sid := by
  have hinv : (runTrace cred0 authedFresh [inputRun1, inputRun2]).2 =
      [⟨"uuid-1", "System update: The current date and time is " ++
        "2025-01-01 00:00:00 UTC" ++ "."⟩, ⟨"uuid-2", "hi"⟩] := by decide
  refine ⟨by rw [hinv]; rfl, ?_⟩
  rintro ⟨sid, hall⟩
  rw [hinv] at hall
  have h1 : ("uuid-1" : String) = sid := hall _ (List.mem_cons_self _ _)
  have h2 : ("uuid-2" : String) = sid :=
    hall _ (List.mem_cons_of_mem _ (List.mem_cons_self _ _))
  have : ("uuid-1" : String) = "uuid-2" := h1.trans h2.symm
  exact absurd this (by decide)

theorem c7_error_classes_witness :
    get_bedrock_response (.clientError "ThrottlingException" "Rate exceeded") =
      (none, [Report.awsError "ThrottlingException" "Rate exceeded"]) ∧
    get_bedrock_response (.otherError "boom") = (none, [Report.commError "boom"]) ∧
    Report.awsError "ThrottlingException" "Rate exceeded" ≠ Report.commError "boom" :=
  ⟨(c7_error_classes "ThrottlingException" "Rate exceeded").1,
   (c7_error_classes "ThrottlingException" "Rate exceeded").2.1 "boom",
   (c7_error_classes "ThrottlingException" "Rate exceeded").2.2 "boom"⟩
